import Mathlib

/-!
Verification of the workflow/state-machine core of the Automated Book
Generation System against its natural-language specification.

The Python sources are shallowly embedded: strings are `String`/`List Char`,
nullable strings are `Option String` (with Python truthiness made explicit),
the persistence and generation collaborators are passed in as values or
`Except`-valued oracles, and every function is a total, computable Lean
definition mirroring the control flow of the corresponding Python function.
-/

namespace BookGen

/-! ## Python string primitives -/

/-- ASCII model of the whitespace class used by Python `str.strip` and the
regex class backslash-s. -/
def isPySpace (c : Char) : Bool :=
  c = ' ' || c = '\t' || c = '\n' || c = '\r' || c = '\x0b' || c = '\x0c'

/-- Python `str.strip()` on a character list. -/
def pyStrip (cs : List Char) : List Char :=
  ((cs.dropWhile isPySpace).reverse.dropWhile isPySpace).reverse

/-- Python `str.lower()` (ASCII model). -/
def lowerChars (cs : List Char) : List Char :=
  cs.map Char.toLower

/-- Case-insensitively consume `pat` from the front of `cs`, returning the
remainder on success. -/
def ciMatchDrop : List Char → List Char → Option (List Char)
  | [], cs => some cs
  | _ :: _, [] => none
  | p :: ps, c :: cs =>
    if p.toLower = c.toLower then ciMatchDrop ps cs else none

/-- Python substring test `needle in hay` (case-sensitive). -/
def containsSub (needle : List Char) : List Char → Bool
  | [] => needle.isEmpty
  | c :: rest => needle.isPrefixOf (c :: rest) || containsSub needle rest

/-- Numeric value of a digit string, as produced by Python `int` on a string
of decimal digits. The empty list yields 0 (callers guard non-emptiness). -/
def digitsToNat (cs : List Char) : Nat :=
  cs.foldl (fun a c => a * 10 + (c.toNat - 48)) 0

/-- Python `text.split(chr(10))`: split at every newline, keeping empty
pieces. -/
def splitNewlines : List Char → List (List Char)
  | [] => [[]]
  | c :: rest =>
    if c = '\n' then [] :: splitNewlines rest
    else
      match splitNewlines rest with
      | [] => [[c]]
      | l :: ls => (c :: l) :: ls

/-- Python truthiness of a nullable string: `None` and the empty string are
falsy. -/
def truthy : Option String → Bool
  | none => false
  | some s => !(s == "")

/-! ## Stable sort by a natural-number key (model of Python `list.sort(key=...)`,
which is a stable ascending sort) -/

/-- Insert into a list sorted by `key`, before the first element with a key
that is not smaller (so earlier input elements stay before later ones with an
equal key, as in Python's stable sort). -/
def insertByKey (key : α → Nat) (a : α) : List α → List α
  | [] => [a]
  | b :: bs => if key a ≤ key b then a :: b :: bs else b :: insertByKey key a bs

/-- Stable insertion sort by `key`, ascending. -/
def sortByKey (key : α → Nat) : List α → List α
  | [] => []
  | a :: as => insertByKey key a (sortByKey key as)

/-! ## Outline parser of backend/api_interactive.py (`parse_outline_chapters`) -/

/-- A parsed outline entry: chapter number and title, as the dictionaries
produced by `parse_outline_chapters`. -/
structure PChapter where
  number : Nat
  title : String
deriving DecidableEq, Repr

/-- The anchored heading match of the backend parser: Python
`re.match` of the pattern caret, Chapter, backslash-s plus, digit group,
backslash-s star, colon, backslash-s star, dot-plus group, dollar, with
IGNORECASE, applied to the stripped line.  Because the character after a
shortened digit group is itself a digit, and the whitespace class cannot
consume digits, the regex backtracking is equivalent to this greedy scan.
Returns the parsed number and the stripped title group. -/
def matchChapterLine (line : String) : Option (Nat × String) :=
  let s := pyStrip line.data
  match ciMatchDrop "chapter".data s with
  | none => none
  | some r1 =>
    let ws := r1.takeWhile isPySpace
    if ws.isEmpty then none
    else
      let r2 := r1.dropWhile isPySpace
      let ds := r2.takeWhile Char.isDigit
      if ds.isEmpty then none
      else
        match (r2.drop ds.length).dropWhile isPySpace with
        | [] => none
        | c :: r4 =>
          if c = ':' then
            if r4.isEmpty then none
            else some (digitsToNat ds, String.mk (pyStrip r4))
          else none

/-- The placeholder-title rejection of the backend parser: empty title, or a
title containing the literal bracketed chapter-title-here text
(case-insensitively). -/
def isPlaceholderTitle (title : String) : Bool :=
  containsSub "[chapter title here]".data (lowerChars title.data) || title == ""

/-- Whether Python `re.sub` of the pattern backslash-s star, Description,
colon, dot star, dollar (IGNORECASE) matches at this position: an optional
whitespace run followed immediately by the marker. -/
def wsThenDescMarker (cs : List Char) : Bool :=
  (ciMatchDrop "description:".data (cs.dropWhile isPySpace)).isSome

/-- The trailing-description cleanup of the backend parser: cut the title at
the leftmost position where optional whitespace is followed by a
case-insensitive Description-colon marker (everything from there to the end
of the string is removed by the substitution). -/
def descStrip : List Char → List Char
  | [] => []
  | c :: rest => if wsThenDescMarker (c :: rest) then [] else c :: descStrip rest

/-- The entry the scanning loop of `parse_outline_chapters` would append for
a single line, ignoring the duplicate-number set and the early break: `none`
when the line does not match the anchored pattern or has a placeholder
title. -/
def lineEntry (line : String) : Option PChapter :=
  match matchChapterLine line with
  | none => none
  | some (num, title) =>
    if isPlaceholderTitle title then none
    else some ⟨num, String.mk (descStrip title.data)⟩

/-- The scanning loop of `parse_outline_chapters`: iterate over lines,
skip duplicate chapter numbers (checked before the placeholder check, as in
the source), skip placeholder titles, and stop as soon as `expected` entries
have been collected. `seen` and `count` carry the loop state. -/
def scanChapters (expected : Nat) : List String → List Nat → Nat → List PChapter
  | [], _, _ => []
  | line :: rest, seen, count =>
    match matchChapterLine line with
    | none => scanChapters expected rest seen count
    | some (num, title) =>
      if num ∈ seen then scanChapters expected rest seen count
      else if isPlaceholderTitle title then scanChapters expected rest seen count
      else
        let e : PChapter := ⟨num, String.mk (descStrip title.data)⟩
        if count + 1 ≥ expected then [e]
        else e :: scanChapters expected rest (num :: seen) (count + 1)

/-- Renumber entries sequentially starting at `k` (Python `enumerate` with
start 1 in the source, generalized for the proofs). -/
def renumberFrom (k : Nat) : List PChapter → List PChapter
  | [] => []
  | c :: cs => ⟨k, c.title⟩ :: renumberFrom (k + 1) cs

/-- The synthesized default chapters used when no valid chapter was parsed. -/
def defaultChapters (expected : Nat) : List PChapter :=
  (List.range expected).map (fun i => ⟨i + 1, "Chapter " ++ toString (i + 1)⟩)

/-- backend/api_interactive.py `parse_outline_chapters`: scan the lines with
duplicate skipping and early break, sort the collected entries by parsed
number (Python's stable sort), truncate to `expected`, renumber sequentially
from 1, and fall back to synthesized defaults when nothing was parsed. -/
def parse_outline_chapters (text : String) (expected : Nat) : List PChapter :=
  let collected := scanChapters expected ((splitNewlines text.data).map String.mk) [] 0
  let sorted := sortByKey PChapter.number collected
  let truncated := sorted.take expected
  let renumbered := renumberFrom 1 truncated
  if renumbered.isEmpty then defaultChapters expected else renumbered

/-! ## Outline parser of workflows/chapter_workflow.py
(`ChapterWorkflow.parse_outline_chapters`) -/

/-- Split at the first colon, Python `line.split(chr(58), 1)`: `none` when no
colon is present (the workflow parser then skips the line). -/
def splitColonOnce : List Char → Option (List Char × List Char)
  | [] => none
  | c :: rest =>
    if c = ':' then some ([], rest)
    else
      match splitColonOnce rest with
      | none => none
      | some (before, after) => some (c :: before, after)

/-- One line of `ChapterWorkflow.parse_outline_chapters`: any line whose
lowercased (stripped) text contains the substring chapter is considered,
split at the first colon; all digits of the part before the colon form the
chapter number; the part after the colon, stripped, is the title. -/
def wfLineEntry (line : String) : Option (Nat × String) :=
  let s := pyStrip line.data
  if containsSub "chapter".data (lowerChars s) then
    match splitColonOnce s with
    | none => none
    | some (before, after) =>
      let numStr := before.filter Char.isDigit
      if numStr.isEmpty then none
      else some (digitsToNat numStr, String.mk (pyStrip after))
  else none

/-- `ChapterWorkflow.parse_outline_chapters`: collect an entry from every
qualifying line, and fall back to ten default chapters when none was found. -/
def wf_parse_outline_chapters (outline : String) : List (Nat × String) :=
  let chapters := ((splitNewlines outline.data).map String.mk).filterMap wfLineEntry
  if chapters.isEmpty then
    (List.range 10).map (fun i => (i + 1, "Chapter " ++ toString (i + 1)))
  else chapters

/-! ## Data model (src/models/schemas.py), as viewed by the state machine -/

/-- The three-way feedback-gate status vocabulary (`StatusEnum`). -/
inductive StatusEnum where
  | yes
  | no
  | no_notes_needed
  | pending
  | approved
  | needs_revision
deriving DecidableEq, Repr

/-- A chapter record.  `title`/`notes` stand for the `title`/`chapter_title`
and `notes`/`chapter_notes` field of the two schema generations; `content`
and `summary` are nullable until generated. -/
structure Chapter where
  chapter_number : Nat
  title : Option String := none
  content : Option String := none
  summary : Option String := none
  notes : Option String := none
  status : String := "pending"
deriving DecidableEq, Repr

/-- The book record as read by `StateMachine`: the outline text, the two
feedback-gate note fields and the three gate statuses. -/
structure Book where
  outline : Option String := none
  notes_on_outline_before : Option String := none
  notes_on_outline_after : Option String := none
  status_outline_notes : Option StatusEnum := none
  chapter_notes_status : Option StatusEnum := none
  final_review_notes_status : Option StatusEnum := none
deriving DecidableEq, Repr

/-- Result of a chapter-table read through the persistence collaborator
(`DatabaseService.get_chapters_by_book` re-raises any database failure, so a
read is a value or an exception). -/
def DbChapters := Except String (List Chapter)

/-! ## Stage Gate (src/core/state_machine.py) -/

/-- `StateMachine.can_generate_outline`. -/
def can_generate_outline (book : Book) : Bool × String :=
  if !truthy book.notes_on_outline_before then
    (false, "notes_on_outline_before is required")
  else if truthy book.outline then (false, "Outline already exists")
  else (true, "OK")

/-- `StateMachine.can_regenerate_outline`. -/
def can_regenerate_outline (book : Book) : Bool × String :=
  if !truthy book.outline then (false, "No existing outline to regenerate")
  else if !truthy book.notes_on_outline_after then
    (false, "notes_on_outline_after is required for regeneration")
  else (true, "OK")

/-- `StateMachine.should_proceed_after_outline`. -/
def should_proceed_after_outline (book : Book) : Bool × String :=
  match book.status_outline_notes with
  | none => (false, "status_outline_notes is not set")
  | some StatusEnum.yes =>
    if !truthy book.notes_on_outline_after then
      (false, "Waiting for notes_on_outline_after")
    else (false, "Notes provided, regeneration needed")
  | some StatusEnum.no_notes_needed => (true, "Proceeding to chapter generation")
  | some StatusEnum.no => (false, "Workflow paused by editor (status=no)")
  | some _ => (false, "Invalid status")

/-- `StateMachine.can_generate_chapter`: for chapter numbers above one it
reads the chapter list through the persistence collaborator (`self.db`) and
propagates a read failure; the predecessor must exist with truthy content. -/
def can_generate_chapter (book : Book) (db : DbChapters) (chapter_number : Nat) :
    Except String (Bool × String) :=
  if !truthy book.outline then
    Except.ok (false, "Outline must exist before generating chapters")
  else if chapter_number > 1 then
    match db with
    | Except.error e => Except.error e
    | Except.ok chapters =>
      match chapters.find? (fun c => c.chapter_number == chapter_number - 1) with
      | none =>
        Except.ok (false, "Previous chapter (" ++ toString (chapter_number - 1) ++
          ") must be completed first")
      | some prev =>
        if !truthy prev.content then
          Except.ok (false, "Previous chapter (" ++ toString (chapter_number - 1) ++
            ") must be completed first")
        else Except.ok (true, "OK")
  else Except.ok (true, "OK")

/-- `StateMachine.should_wait_for_chapter_notes`: in the yes branch it reads
the chapter list through the persistence collaborator and propagates a read
failure. -/
def should_wait_for_chapter_notes (book : Book) (db : DbChapters) (chapter_number : Nat) :
    Except String (Bool × String) :=
  match book.chapter_notes_status with
  | none => Except.ok (true, "chapter_notes_status not set")
  | some StatusEnum.yes =>
    match db with
    | Except.error e => Except.error e
    | Except.ok chapters =>
      match chapters.find? (fun c => c.chapter_number == chapter_number) with
      | some chapter =>
        if !truthy chapter.notes then Except.ok (true, "Waiting for chapter notes")
        else Except.ok (false, "Chapter notes provided")
      | none => Except.ok (false, "Chapter notes provided")
  | some StatusEnum.no_notes_needed => Except.ok (false, "No notes needed, proceeding")
  | some StatusEnum.no => Except.ok (true, "Workflow paused (status=no)")
  | some _ => Except.ok (true, "Invalid status")

/-- Python `repr` of a list of naturals, used in the incomplete-chapters
denial message. -/
def natListRepr (l : List Nat) : String :=
  "[" ++ String.intercalate ", " (l.map toString) ++ "]"

/-- `StateMachine.can_compile_final_draft`: always reads the chapter list
through the persistence collaborator and propagates a read failure. -/
def can_compile_final_draft (book : Book) (db : DbChapters) :
    Except String (Bool × String) :=
  match db with
  | Except.error e => Except.error e
  | Except.ok chapters =>
    if chapters.isEmpty then Except.ok (false, "No chapters exist")
    else
      let incomplete := (chapters.filter (fun c => !truthy c.content)).map Chapter.chapter_number
      if !incomplete.isEmpty then
        Except.ok (false, "Chapters incomplete: " ++ natListRepr incomplete)
      else
        match book.final_review_notes_status with
        | none => Except.ok (false, "final_review_notes_status not set")
        | some StatusEnum.yes => Except.ok (false, "Waiting for final review notes")
        | some StatusEnum.no_notes_needed => Except.ok (true, "Ready for compilation")
        | some StatusEnum.no => Except.ok (true, "Ready for compilation")
        | some _ => Except.ok (false, "Invalid status")

/-! ## Generation client retry loop (src/services/llm_service.py,
`LLMService._call_with_retry`).  An attempt either returns text or raises a
message; the external model is an oracle from the attempt index to that
outcome.  Delays are rationals (idealizing Python floats on the decimal
literals the code extracts). -/

/-- The rate-limit classification of `_call_with_retry`: the message contains
the digits 429, or contains quota exceeded case-insensitively. -/
def isRateLimitMsg (msg : String) : Bool :=
  containsSub "429".data msg.data ||
    containsSub "quota exceeded".data (lowerChars msg.data)

/-- Python `re.search` of the pattern retry in, digits-or-dots group, s:
scan left to right; at a position where the literal prefix matches, the
greedy class run must be non-empty and be followed immediately by the letter
s (a shortened run would be followed by a class character, so backtracking
never succeeds); otherwise continue at the next position.  Returns the
matched group. -/
def extractRetryGroup : List Char → Option (List Char)
  | [] => none
  | c :: rest =>
    if "retry in ".data.isPrefixOf (c :: rest) then
      let after := (c :: rest).drop 9
      let run := after.takeWhile (fun ch => ch.isDigit || ch == '.')
      if !run.isEmpty && "s".data.isPrefixOf (after.drop run.length) then some run
      else extractRetryGroup rest
    else extractRetryGroup rest

/-- Python `float` on a string of digits and dots: at most one dot and at
least one digit, value read as a decimal numeral (`none` models the
ValueError raised otherwise). -/
def pyFloatOfRun (run : List Char) : Option ℚ :=
  let dots := run.countP (fun c => c == '.')
  if dots == 0 then
    if run.isEmpty then none else some (digitsToNat run : ℚ)
  else if dots == 1 then
    let whole := run.takeWhile (fun c => c ≠ '.')
    let frac := (run.dropWhile (fun c => c ≠ '.')).drop 1
    if whole.isEmpty && frac.isEmpty then none
    else some ((digitsToNat whole : ℚ) + (digitsToNat frac : ℚ) / (10 : ℚ) ^ frac.length)
  else none

/-- The user-facing message of the distinguished rate-limit error raised
after exhausting the retries. -/
def rateLimitUserMsg : String :=
  "API rate limit exceeded. Please wait a few minutes and try again. You\x27re on the free tier (20 requests/minute)."

/-- The message of the Python ValueError raised by `float` on a matched but
malformed delay group. -/
def floatConvError (run : List Char) : String :=
  "could not convert string to float: \x27" ++ String.mk run ++ "\x27"

/-- Decidable equality for `Except`, needed to evaluate traces on concrete
inputs. -/
instance exceptDecEq {ε α : Type} [DecidableEq ε] [DecidableEq α] :
    DecidableEq (Except ε α)
  | Except.ok a, Except.ok b =>
    if h : a = b then isTrue (by rw [h])
    else isFalse (by intro he; injection he; contradiction)
  | Except.ok _, Except.error _ => isFalse (by intro h; exact Except.noConfusion h)
  | Except.error _, Except.ok _ => isFalse (by intro h; exact Except.noConfusion h)
  | Except.error e, Except.error f =>
    if h : e = f then isTrue (by rw [h])
    else isFalse (by intro he; injection he; contradiction)

/-- The observable trace of one `_call_with_retry` invocation: the sleeps
performed (in seconds), the number of attempts made, and the returned text or
raised message. -/
structure CallTrace where
  sleeps : List ℚ
  attempts : Nat
  outcome : Except String String
deriving DecidableEq, Repr

/-- The retry loop body of `_call_with_retry`, with `fuel` the number of loop
iterations still available and `attempt` the 0-based index of the current
attempt.  Mirrors the source: classify the failure, extract an embedded
delay (a malformed matched group raises the conversion error), otherwise use
the exponential backoff two-to-the-attempt times five, sleep and continue
while attempts remain, and raise the distinguished rate-limit message on the
final rate-limited failure.  Exhausted fuel is the unreachable fall-through
generic failure of the source. -/
def callAux (resp : Nat → Except String String) (maxRetries : Nat) :
    Nat → Nat → CallTrace
  | 0, attempt => ⟨[], attempt, Except.error "Failed after maximum retries"⟩
  | fuel + 1, attempt =>
    match resp attempt with
    | Except.ok text => ⟨[], attempt + 1, Except.ok text⟩
    | Except.error msg =>
      if isRateLimitMsg msg then
        match extractRetryGroup msg.data with
        | some run =>
          match pyFloatOfRun run with
          | none => ⟨[], attempt + 1, Except.error (floatConvError run)⟩
          | some q =>
            if attempt + 1 < maxRetries then
              let t := callAux resp maxRetries fuel (attempt + 1)
              ⟨q :: t.sleeps, t.attempts, t.outcome⟩
            else ⟨[], attempt + 1, Except.error rateLimitUserMsg⟩
        | none =>
          let q : ℚ := (2 : ℚ) ^ attempt * 5
          if attempt + 1 < maxRetries then
            let t := callAux resp maxRetries fuel (attempt + 1)
            ⟨q :: t.sleeps, t.attempts, t.outcome⟩
          else ⟨[], attempt + 1, Except.error rateLimitUserMsg⟩
      else ⟨[], attempt + 1, Except.error msg⟩

/-- `LLMService._call_with_retry` with `max_retries` attempts (source default
three). -/
def call_with_retry (resp : Nat → Except String String) (maxRetries : Nat := 3) :
    CallTrace :=
  callAux resp maxRetries maxRetries 0

/-- An attempt outcome after which the loop retries: a failure classified as
rate-limited whose matched delay group (if any) converts to a float. -/
def rlRetryable (r : Except String String) : Bool :=
  match r with
  | Except.ok _ => false
  | Except.error msg =>
    isRateLimitMsg msg &&
      (match extractRetryGroup msg.data with
       | none => true
       | some run => (pyFloatOfRun run).isSome)

/-- The delay the loop computes for a failed attempt (0-based index
`attempt`): the embedded delay when one was matched and converts, the
exponential backoff otherwise. -/
def delayOf (r : Except String String) (attempt : Nat) : ℚ :=
  match r with
  | Except.ok _ => 0
  | Except.error msg =>
    match extractRetryGroup msg.data with
    | some run => (pyFloatOfRun run).getD 0
    | none => (2 : ℚ) ^ attempt * 5

/-! ## Context chain (src/services/database_service.py and
src/core/context_manager.py) -/

/-- `DatabaseService.get_previous_chapter_summaries`: the store query selects
the rows of the book with `chapter_number` below the target, ordered
ascending by `chapter_number`; the comprehension keeps a row only when
`chapter.get` of summary is truthy (so both a null and an empty-string
summary are dropped) and yields the summary value. -/
def get_previous_chapter_summaries (chapters : List Chapter) (beforeChapter : Nat) :
    List String :=
  let rows := sortByKey Chapter.chapter_number
    (chapters.filter (fun c => c.chapter_number < beforeChapter))
  (rows.filter (fun c => truthy c.summary)).map (fun c => c.summary.getD "")

/-- `ContextManager.get_context_for_chapter`: a failing summaries read is
swallowed and turned into the empty context. -/
def get_context_for_chapter (summariesRead : Except String (List String)) :
    List String :=
  match summariesRead with
  | Except.ok summaries => summaries
  | Except.error _ => []

/-- The observable behaviour of one `ContextManager.generate_and_store_summary`
call: its return-or-raise, whether the generation client was invoked, and
whether a persistence update was attempted. -/
structure SummaryEffects where
  result : Except String String
  llmCalled : Bool
  dbUpdateAttempted : Bool
deriving DecidableEq, Repr

/-- `ContextManager.generate_and_store_summary`: a chapter whose content is
falsy (null or empty) short-circuits to the empty string; otherwise the
generation client is invoked and the summary persisted, and a failure of
either collaborator propagates (re-raised by the except block). -/
def generate_and_store_summary (chapter : Chapter)
    (llmSummary : Except String String) (dbUpdate : Except String Unit) :
    SummaryEffects :=
  if !truthy chapter.content then ⟨Except.ok "", false, false⟩
  else
    match llmSummary with
    | Except.error e => ⟨Except.error e, true, false⟩
    | Except.ok summary =>
      match dbUpdate with
      | Except.error e => ⟨Except.error e, true, true⟩
      | Except.ok _ => ⟨Except.ok summary, true, true⟩

/-! ## Interactive API endpoints (backend/api_interactive.py) -/

/-- The successful response and resulting store of the
generate-chapter endpoint. -/
structure GenChapterResult where
  chapters : List Chapter
  title : String
  content : String
deriving DecidableEq, Repr

/-- The detail message of the friendly 429 answer of the chapter endpoint. -/
def friendly429Detail : String :=
  "API rate limit exceeded. The system is automatically retrying. Please wait a moment and try again, or wait a few minutes if this persists. (Free tier: 20 requests/minute)"

/-- Endpoint `POST /books/.../generate-chapter/...` (`generate_chapter` of
backend/api_interactive.py): the only admission check is that the in-memory
workflow step is chapter_generation or chapter_review — the Stage Gate
`can_generate_chapter` is never consulted.  On admission it parses the
outline for the chapter title, invokes the generation client, and
unconditionally inserts a fresh chapter record with the requested number
into the store. -/
def api_generate_chapter (workflowStep : String) (numChapters : Nat)
    (outlineText : String) (chapters : List Chapter)
    (llmResult : Except String String) (chapterNum : Nat) :
    Except String GenChapterResult :=
  if !(workflowStep == "chapter_generation" || workflowStep == "chapter_review") then
    Except.error ("Outline must be approved first. Current step: " ++ workflowStep)
  else
    let _prevSummaries := get_previous_chapter_summaries chapters chapterNum
    let parsed := parse_outline_chapters outlineText numChapters
    let title :=
      ((parsed.find? (fun c => c.number == chapterNum)).map PChapter.title).getD
        ("Chapter " ++ toString chapterNum)
    match llmResult with
    | Except.error msg =>
      if containsSub "rate limit".data (lowerChars msg.data) ||
          containsSub "quota exceeded".data (lowerChars msg.data) then
        Except.error friendly429Detail
      else Except.error msg
    | Except.ok content =>
      let newChapter : Chapter :=
        { chapter_number := chapterNum, title := some title, content := some content }
      Except.ok ⟨chapters ++ [newChapter], title, content⟩

/-- The approval request body of the interactive endpoints. -/
structure ApprovalReq where
  approved : Bool
  feedback : Option String := none
  rating : Option Int := none
deriving DecidableEq, Repr

/-- The successful response of the approve-chapter endpoint, with the
warnings logged along the way. -/
structure ApproveOutcome where
  status : String
  message : String
  next_step : Option String
  warnings : List String
deriving DecidableEq, Repr

/-- Endpoint `POST /books/.../approve-chapter/...` (`approve_chapter` of
backend/api_interactive.py).  HTTP errors are (status code, detail); the
summary generation and the summary persistence are each wrapped in their own
try-block whose failure is only logged as a warning, so an approval is
reported approved (advancing to the next step) regardless of those two
collaborators.  The save is guarded by Python truthiness of the summary
variable (`if summary:`), so a generated empty-string summary skips the
persistence step (and its warning) entirely. -/
def api_approve_chapter (chapters : List Chapter) (chapterNum : Nat)
    (approval : ApprovalReq) (genSummary : Except String String)
    (saveSummary : Except String Unit) (totalChapters : Nat) :
    Except (Nat × String) ApproveOutcome :=
  match chapters.find? (fun c => c.chapter_number == chapterNum) with
  | none => Except.error (404, "Chapter not found")
  | some _chapter =>
    if approval.approved then
      let genStep : Option String × List String :=
        match genSummary with
        | Except.ok s => (some s, [])
        | Except.error e =>
          (none, ["Could not generate summary for chapter " ++
            toString chapterNum ++ ": " ++ e])
      let saveWarnings : List String :=
        if truthy genStep.1 then
          match saveSummary with
          | Except.ok _ => []
          | Except.error e => ["Could not save summary: " ++ e]
        else []
      let warnings := genStep.2 ++ saveWarnings
      if chapterNum < totalChapters then
        Except.ok
          { status := "approved"
            message := "Chapter " ++ toString chapterNum ++ " approved!"
            next_step := some ("generate_chapter_" ++ toString (chapterNum + 1))
            warnings := warnings }
      else
        Except.ok
          { status := "all_approved"
            message := "All chapters completed!"
            next_step := some "final_review"
            warnings := warnings }
    else
      match approval.feedback with
      | none => Except.error (400, "Feedback required for changes")
      | some _fb =>
        Except.ok
          { status := "needs_revision"
            message := "Feedback received. Regenerating chapter..."
            next_step := none
            warnings := [] }

/-! ## Definitions following the specification text, for comparison with the
source embeddings (refinement-style claims) -/

/-- The well-formed heading entries of an outline, in document order: the
entry the backend scanning loop would produce for each matching,
non-placeholder line, before duplicate removal and the early break. -/
def matchedEntries (text : String) : List PChapter :=
  ((splitNewlines text.data).map String.mk).filterMap lineEntry

/-- Written from the specification text, not from the source: a line begins
with Chapter, whitespace, digits, optional whitespace and a colon
(case-insensitive, after stripping surrounding whitespace). -/
def beginsWithChapterHeading (line : String) : Bool :=
  let s := pyStrip line.data
  match ciMatchDrop "chapter".data s with
  | none => false
  | some r1 =>
    if (r1.takeWhile isPySpace).isEmpty then false
    else
      let r2 := r1.dropWhile isPySpace
      let ds := r2.takeWhile Char.isDigit
      if ds.isEmpty then false
      else
        match (r2.drop ds.length).dropWhile isPySpace with
        | [] => false
        | c :: _ => c == ':'

/-- Written from the specification text, not from the source: the ordered
prior summaries of chapters below the target, keeping every chapter whose
summary is non-null (the claim's reading, with no emptiness condition). -/
def contextForSpec (chapters : List Chapter) (beforeChapter : Nat) : List String :=
  (sortByKey Chapter.chapter_number
    (chapters.filter (fun c => c.chapter_number < beforeChapter))).filterMap
      Chapter.summary

/-- Written from the specification text, not from the source: whether `cs` is
a decimal numeral as accepted for the delay seconds (at least one digit, at
most one dot, nothing else). -/
def isDecimalNumeral (cs : List Char) : Bool :=
  cs.any Char.isDigit && cs.all (fun c => c.isDigit || c == '.') &&
    cs.countP (fun c => c == '.') ≤ 1

/-- Written from the specification text, not from the source: the delay
embedded in a failure message as the pattern retry in, seconds, s — the
leftmost occurrence whose seconds part is a well-formed decimal numeral. -/
def specEmbeddedDelay : List Char → Option ℚ
  | [] => none
  | c :: rest =>
    if "retry in ".data.isPrefixOf (c :: rest) then
      let after := (c :: rest).drop 9
      let run := after.takeWhile (fun ch => ch.isDigit || ch == '.')
      if isDecimalNumeral run && "s".data.isPrefixOf (after.drop run.length) then
        (pyFloatOfRun run)
      else specEmbeddedDelay rest
    else specEmbeddedDelay rest

/-- Claim C5 as stated, written from the specification text: whenever attempt
k (1-based) of a call was made and failed rate-limited with more attempts
allowed, the client sleeps before the next attempt, for exactly the embedded
delay when the message carries one and for the exponential backoff
otherwise. -/
def claimC5Statement : Prop :=
  ∀ (resp : Nat → Except String String) (m k : Nat) (msg : String),
    1 ≤ k → k < m →
    k ≤ (call_with_retry resp m).attempts →
    resp (k - 1) = Except.error msg → isRateLimitMsg msg = true →
    k ≤ (call_with_retry resp m).sleeps.length ∧
      (call_with_retry resp m).sleeps.getD (k - 1) 0 =
        (match specEmbeddedDelay msg.data with
         | some q => q
         | none => 5 * 2 ^ (k - 1))

/-- Claim C6 as stated, written from the specification text: the client
throws in exactly two ways — an immediate re-raise of a failure whose
message is not rate-limited, or the distinguished user-facing rate-limit
message. -/
def claimC6Statement : Prop :=
  ∀ (resp : Nat → Except String String) (m : Nat) (e : String),
    1 ≤ m →
    (call_with_retry resp m).outcome = Except.error e →
    (∃ j, j < m ∧ resp j = Except.error e ∧ isRateLimitMsg e = false) ∨
      e = rateLimitUserMsg

/-! ## Concrete fixtures used by the counterexamples and witnesses -/

/-- An oracle whose every attempt fails rate-limited with a malformed
embedded delay (the matched group does not convert to a float). -/
def respMalformedDelay : Nat → Except String String :=
  fun _ => Except.error "429 retry in 1..2s"

/-- An oracle whose every attempt fails rate-limited with no embedded
delay. -/
def respQuota : Nat → Except String String :=
  fun _ => Except.error "429 quota exceeded for this key"

/-- An oracle whose first attempt fails with a non-rate-limited message. -/
def respBoom : Nat → Except String String :=
  fun _ => Except.error "invalid request payload"

/-- A two-chapter outline text fixture. -/
def outlineAB : String := "Chapter 1: Alpha\nChapter 2: Beta"

/-- A store holding only chapter 1, already generated. -/
def storeCh1Done : List Chapter :=
  [{ chapter_number := 1, title := some "Alpha", content := some "chapter one text" }]

/-- A chapter whose summary is present but empty (non-null). -/
def chEmptySummary : Chapter := { chapter_number := 1, summary := some "" }

/-- First generate-chapter request for chapter 2 against `storeCh1Done`. -/
def genRun1 : Except String GenChapterResult :=
  api_generate_chapter "chapter_generation" 2 outlineAB storeCh1Done
    (Except.ok "first run") 2

/-- The store after the first request. -/
def genStore1 : List Chapter :=
  match genRun1 with
  | Except.ok r => r.chapters
  | Except.error _ => []

/-- An identical second generate-chapter request for chapter 2, replayed
against the store left by the first one. -/
def genRun2 : Except String GenChapterResult :=
  api_generate_chapter "chapter_generation" 2 outlineAB genStore1
    (Except.ok "second run") 2

/-- The store after the replayed request. -/
def genStore2 : List Chapter :=
  match genRun2 with
  | Except.ok r => r.chapters
  | Except.error _ => []

/-! # Theorems -/

/-! ## Lemmas about the stable key sort -/

theorem length_insertByKey (key : α → Nat) (a : α) (l : List α) :
    (insertByKey key a l).length = l.length + 1 := by
  induction l with
  | nil => rfl
  | cons b bs ih =>
    simp only [insertByKey]
    split <;> simp [ih]

theorem length_sortByKey (key : α → Nat) (l : List α) :
    (sortByKey key l).length = l.length := by
  induction l with
  | nil => rfl
  | cons a as ih => simp [sortByKey, length_insertByKey, ih]

theorem mem_insertByKey {key : α → Nat} {a b : α} {l : List α} :
    b ∈ insertByKey key a l ↔ b = a ∨ b ∈ l := by
  induction l with
  | nil => simp [insertByKey]
  | cons c cs ih =>
    simp only [insertByKey]
    split
    · simp [List.mem_cons]
    · simp only [List.mem_cons, ih]
      tauto

theorem mem_sortByKey {key : α → Nat} {a : α} {l : List α} :
    a ∈ sortByKey key l ↔ a ∈ l := by
  induction l with
  | nil => simp [sortByKey]
  | cons b bs ih => simp [sortByKey, mem_insertByKey, ih]

theorem pairwise_insertByKey {key : α → Nat} {a : α} {l : List α}
    (h : l.Pairwise (fun x y => key x ≤ key y)) :
    (insertByKey key a l).Pairwise (fun x y => key x ≤ key y) := by
  induction l with
  | nil => simp [insertByKey]
  | cons b bs ih =>
    simp only [insertByKey]
    rcases List.pairwise_cons.mp h with ⟨hb, hbs⟩
    split
    · refine List.pairwise_cons.mpr ⟨?_, h⟩
      intro x hx
      rcases List.mem_cons.mp hx with rfl | hx
      · omega
      · have := hb x hx
        omega
    · refine List.pairwise_cons.mpr ⟨?_, ih hbs⟩
      intro x hx
      rcases mem_insertByKey.mp hx with rfl | hx
      · omega
      · exact hb x hx

theorem pairwise_sortByKey (key : α → Nat) (l : List α) :
    (sortByKey key l).Pairwise (fun x y => key x ≤ key y) := by
  induction l with
  | nil => simp [sortByKey]
  | cons b bs ih => exact pairwise_insertByKey ih

/-! ## Lemmas about the backend outline parser -/

theorem length_renumberFrom (k : Nat) (l : List PChapter) :
    (renumberFrom k l).length = l.length := by
  induction l generalizing k with
  | nil => rfl
  | cons c cs ih => simp [renumberFrom, ih]

theorem map_number_renumberFrom (k : Nat) (l : List PChapter) :
    (renumberFrom k l).map PChapter.number = List.range' k l.length := by
  induction l generalizing k with
  | nil => rfl
  | cons c cs ih => simp [renumberFrom, List.range'_succ, ih]

/-- The scanning loop with duplicate skipping and early break is the
`take` of the well-formed entries, provided the entry numbers are pairwise
distinct and disjoint from the numbers already seen. -/
theorem scanChapters_eq_take (expected : Nat) :
    ∀ (lines : List String) (seen : List Nat) (count : Nat),
      count < expected →
      ((lines.filterMap lineEntry).map PChapter.number).Nodup →
      (∀ e ∈ lines.filterMap lineEntry, e.number ∉ seen) →
      scanChapters expected lines seen count =
        (lines.filterMap lineEntry).take (expected - count)
  | [], seen, count, _, _, _ => by simp [scanChapters]
  | line :: rest, seen, count, hc, hnd, hseen => by
    cases hm : matchChapterLine line with
    | none =>
      have hle : lineEntry line = none := by simp [lineEntry, hm]
      have hfm : (line :: rest).filterMap lineEntry = rest.filterMap lineEntry := by
        simp [List.filterMap_cons, hle]
      rw [hfm] at hnd hseen
      simp only [scanChapters, hm]
      rw [hfm, scanChapters_eq_take expected rest seen count hc hnd hseen]
    | some p =>
      obtain ⟨num, title⟩ := p
      by_cases hpl : isPlaceholderTitle title = true
      · have hle : lineEntry line = none := by simp [lineEntry, hm, hpl]
        have hfm : (line :: rest).filterMap lineEntry = rest.filterMap lineEntry := by
          simp [List.filterMap_cons, hle]
        rw [hfm] at hnd hseen
        have hrec := scanChapters_eq_take expected rest seen count hc hnd hseen
        simp only [scanChapters, hm, hpl, if_true, ite_self]
        rw [hfm]
        exact hrec
      · have hple : isPlaceholderTitle title = false := by
          simpa using hpl
        have hle : lineEntry line = some ⟨num, String.mk (descStrip title.data)⟩ := by
          simp [lineEntry, hm, hple]
        have hfm : (line :: rest).filterMap lineEntry =
            ⟨num, String.mk (descStrip title.data)⟩ :: rest.filterMap lineEntry := by
          simp [List.filterMap_cons, hle]
        have hmem : (⟨num, String.mk (descStrip title.data)⟩ : PChapter) ∈
            (line :: rest).filterMap lineEntry := by
          rw [hfm]; exact List.mem_cons_self _ _
        have hnum : num ∉ seen := hseen _ hmem
        have hnd' : ((rest.filterMap lineEntry).map PChapter.number).Nodup := by
          rw [hfm] at hnd
          exact (List.nodup_cons.mp (by simpa using hnd)).2
        have hhead : num ∉ (rest.filterMap lineEntry).map PChapter.number := by
          rw [hfm] at hnd
          exact (List.nodup_cons.mp (by simpa using hnd)).1
        simp only [scanChapters, hm]
        rw [if_neg hnum, if_neg (by simp [hple])]
        by_cases hfull : count + 1 ≥ expected
        · rw [if_pos hfull]
          have h1 : expected - count = 1 := by omega
          rw [hfm, h1]
          rfl
        · rw [if_neg hfull]
          have hseen' : ∀ e ∈ rest.filterMap lineEntry, e.number ∉ num :: seen := by
            intro e he
            rw [List.mem_cons]
            push_neg
            constructor
            · intro hnume
              exact hhead (by
                rw [← hnume]
                exact List.mem_map_of_mem PChapter.number he)
            · exact hseen e (by rw [hfm]; exact List.mem_cons_of_mem _ he)
          have ih := scanChapters_eq_take expected rest (num :: seen) (count + 1)
            (by omega) hnd' hseen'
          rw [ih, hfm]
          have h2 : expected - count = (expected - (count + 1)) + 1 := by omega
          rw [h2, List.take_succ_cons]

/-- C2.  For an outline whose well-formed heading lines carry pairwise
distinct chapter numbers, at least `n` of them, the backend parser returns
the first `n` well-formed entries sorted by parsed number and renumbered
sequentially: exactly `n` entries numbered 1..n. -/
theorem parse_outline_chapters_wellformed_count (text : String) (n : Nat)
    (hn : 1 ≤ n)
    (hnd : ((matchedEntries text).map PChapter.number).Nodup)
    (hlen : n ≤ (matchedEntries text).length) :
    parse_outline_chapters text n =
      renumberFrom 1 (sortByKey PChapter.number ((matchedEntries text).take n)) ∧
    (parse_outline_chapters text n).length = n ∧
    (parse_outline_chapters text n).map PChapter.number = List.range' 1 n := by
  have hscan : scanChapters n ((splitNewlines text.data).map String.mk) [] 0 =
      (matchedEntries text).take n := by
    have := scanChapters_eq_take n ((splitNewlines text.data).map String.mk) [] 0
      (by omega) hnd (by intro e _; exact List.not_mem_nil _)
    simpa [matchedEntries] using this
  have hlentake : ((matchedEntries text).take n).length = n := by
    simp [List.length_take]
    omega
  have hlensort : (sortByKey PChapter.number ((matchedEntries text).take n)).length = n := by
    rw [length_sortByKey, hlentake]
  have htrunc : (sortByKey PChapter.number ((matchedEntries text).take n)).take n =
      sortByKey PChapter.number ((matchedEntries text).take n) := by
    apply List.take_of_length_le
    omega
  have hres : parse_outline_chapters text n =
      renumberFrom 1 (sortByKey PChapter.number ((matchedEntries text).take n)) := by
    simp only [parse_outline_chapters]
    rw [hscan, htrunc]
    rw [if_neg ?_]
    rw [List.isEmpty_iff]
    intro hnil
    have := length_renumberFrom 1 (sortByKey PChapter.number ((matchedEntries text).take n))
    rw [hnil] at this
    simp at this
    omega
  refine ⟨hres, ?_, ?_⟩
  · rw [hres, length_renumberFrom, hlensort]
  · rw [hres, map_number_renumberFrom, hlensort]

/-- Witness for C2 at a three-heading outline with expected count two. -/
theorem parse_outline_chapters_wellformed_count_witness :
    (1 ≤ 2 ∧
      ((matchedEntries "Chapter 1: Alpha\nChapter 2: Beta\nChapter 3: Gamma").map
        PChapter.number).Nodup ∧
      2 ≤ (matchedEntries "Chapter 1: Alpha\nChapter 2: Beta\nChapter 3: Gamma").length) ∧
    ((parse_outline_chapters "Chapter 1: Alpha\nChapter 2: Beta\nChapter 3: Gamma" 2).length = 2 ∧
      (parse_outline_chapters "Chapter 1: Alpha\nChapter 2: Beta\nChapter 3: Gamma" 2).map
        PChapter.number = List.range' 1 2) :=
  ⟨⟨by decide, by decide, by decide⟩,
    (parse_outline_chapters_wellformed_count
      "Chapter 1: Alpha\nChapter 2: Beta\nChapter 3: Gamma" 2
      (by decide) (by decide) (by decide)).2⟩

/-! ## C3: anchoring of the two outline parsers -/

/-- C3 (amended).  In the backend parser a line yields an entry only if it
begins (case-insensitively, up to whitespace) with Chapter, digits and a
colon: every line the anchored matcher accepts satisfies the
specification's begins-with predicate. -/
theorem matchChapterLine_requires_anchor (line : String)
    (h : (matchChapterLine line).isSome = true) :
    beginsWithChapterHeading line = true := by
  unfold matchChapterLine at h
  unfold beginsWithChapterHeading
  dsimp only at h ⊢
  cases hcd : ciMatchDrop "chapter".data (pyStrip line.data) with
  | none => rw [hcd] at h; simp at h
  | some r1 =>
    have hcd2 : ciMatchDrop ('c' :: 'h' :: 'a' :: 'p' :: 't' :: 'e' :: 'r' :: [])
        (pyStrip line.data) = some r1 := hcd
    rw [hcd2] at h
    dsimp only at h ⊢
    by_cases hws : (r1.takeWhile isPySpace).isEmpty = true
    · rw [if_pos hws] at h; simp at h
    · rw [if_neg hws] at h
      rw [if_neg hws]
      by_cases hds : ((r1.dropWhile isPySpace).takeWhile Char.isDigit).isEmpty = true
      · rw [if_pos hds] at h; simp at h
      · rw [if_neg hds] at h
        rw [if_neg hds]
        generalize ((r1.dropWhile isPySpace).drop
            ((r1.dropWhile isPySpace).takeWhile Char.isDigit).length).dropWhile isPySpace = r3
          at h ⊢
        cases r3 with
        | nil => simp at h
        | cons c r4 =>
          dsimp only at h ⊢
          by_cases hc : c = ':'
          · simp [hc]
          · rw [if_neg hc] at h
            simp at h

/-- Witness for C3's amended theorem at a well-formed heading line. -/
theorem matchChapterLine_requires_anchor_witness :
    (matchChapterLine "Chapter 3: The Storm").isSome = true ∧
    beginsWithChapterHeading "Chapter 3: The Storm" = true :=
  ⟨by decide, matchChapterLine_requires_anchor "Chapter 3: The Storm" (by decide)⟩

/-- C3 (counterexample).  The workflow parser
(`ChapterWorkflow.parse_outline_chapters`) produces an entry from a
description line that merely contains the word chapter and a colon — the
line does not begin with an anchored heading, and the backend matcher
rejects it. -/
theorem wf_parser_matches_unanchored_line :
    wf_parse_outline_chapters "In chapter 2 we see: the fall" = [(2, "the fall")] ∧
    beginsWithChapterHeading "In chapter 2 we see: the fall" = false ∧
    lineEntry "In chapter 2 we see: the fall" = none := by
  refine ⟨by decide, by decide, by decide⟩

/-! ## C1: sequential chapter gating -/

/-- C1 (amended).  The Stage Gate itself enforces the sequential
dependency: for any chapter number above one, when no stored chapter with
the predecessor number has truthy content, `can_generate_chapter` returns
false with a denial reason (the workflow orchestrator consults it, but the
interactive generate-chapter endpoint does not). -/
theorem can_generate_chapter_denies_missing_predecessor (book : Book)
    (chapters : List Chapter) (n : Nat) (h1 : 1 < n)
    (h2 : ∀ c ∈ chapters, c.chapter_number = n - 1 → truthy c.content = false) :
    ∃ reason, can_generate_chapter book (Except.ok chapters) n =
      Except.ok (false, reason) := by
  unfold can_generate_chapter
  by_cases ho : truthy book.outline
  · rw [if_neg (by simp [ho]), if_pos h1]
    dsimp only
    cases hf : chapters.find? (fun c => c.chapter_number == n - 1) with
    | none => exact ⟨_, rfl⟩
    | some prev =>
      have hmem : prev ∈ chapters := List.mem_of_find?_eq_some hf
      have hnum : prev.chapter_number = n - 1 := by
        have := List.find?_some hf
        simpa using this
      have hcontent : truthy prev.content = false := h2 prev hmem hnum
      dsimp only
      rw [if_pos (by simp [hcontent])]
      exact ⟨_, rfl⟩
  · rw [if_pos (by simpa using ho)]
    exact ⟨_, rfl⟩

/-- Witness for C1's amended theorem: chapter 2 with an empty chapter
store. -/
theorem can_generate_chapter_denies_missing_predecessor_witness :
    (1 < 2 ∧ (∀ c ∈ ([] : List Chapter), c.chapter_number = 1 → truthy c.content = false)) ∧
    (∃ reason, can_generate_chapter { outline := some outlineAB } (Except.ok []) 2 =
      Except.ok (false, reason)) :=
  ⟨⟨by decide, by intro c hc; cases hc⟩,
    can_generate_chapter_denies_missing_predecessor { outline := some outlineAB } [] 2
      (by decide) (by intro c hc; cases hc)⟩

/-- C1 (counterexample).  With an approved outline, chapter 1 not yet
generated (empty store), the Stage Gate denies chapter 2 — yet the
interactive generate-chapter endpoint admits the very same request, invokes
generation and inserts chapter 2, because it only checks the in-memory
workflow step and never consults the gate. -/
theorem api_generate_chapter_bypasses_gate :
    can_generate_chapter { outline := some outlineAB } (Except.ok []) 2 =
      Except.ok (false, "Previous chapter (1) must be completed first") ∧
    api_generate_chapter "chapter_generation" 2 outlineAB [] (Except.ok "body text") 2 =
      Except.ok ⟨[{ chapter_number := 2, title := some "Beta",
                    content := some "body text" }], "Beta", "body text"⟩ := by
  constructor
  · decide
  · decide

/-! ## C4: purity and totality of the Stage Gate predicates -/

/-- C4 (amended).  Given a successful chapter read from the persistence
collaborator, all six Stage Gate predicates are total functions of the
snapshots and return a (bool, reason) pair; the first three never consult
the collaborator at all. -/
theorem gates_total_on_successful_read (book : Book) (chapters : List Chapter) (n : Nat) :
    (∃ b r, can_generate_outline book = (b, r)) ∧
    (∃ b r, can_regenerate_outline book = (b, r)) ∧
    (∃ b r, should_proceed_after_outline book = (b, r)) ∧
    (∃ b r, can_generate_chapter book (Except.ok chapters) n = Except.ok (b, r)) ∧
    (∃ b r, should_wait_for_chapter_notes book (Except.ok chapters) n = Except.ok (b, r)) ∧
    (∃ b r, can_compile_final_draft book (Except.ok chapters) = Except.ok (b, r)) := by
  refine ⟨⟨_, _, rfl⟩, ⟨_, _, rfl⟩, ⟨_, _, rfl⟩, ?_, ?_, ?_⟩
  · unfold can_generate_chapter
    dsimp only
    repeat' split
    all_goals exact ⟨_, _, rfl⟩
  · unfold should_wait_for_chapter_notes
    dsimp only
    repeat' split
    all_goals exact ⟨_, _, rfl⟩
  · unfold can_compile_final_draft
    dsimp only
    repeat' split
    all_goals exact ⟨_, _, rfl⟩

/-- C4 (counterexample).  Three of the gate predicates read the chapter list
through the persistence collaborator while evaluating — their result depends
on it, and a failing read propagates out instead of a (bool, reason) pair. -/
theorem gate_propagates_db_failure :
    can_generate_chapter { outline := some outlineAB }
        (Except.error "database connection failed") 2 =
      Except.error "database connection failed" ∧
    can_compile_final_draft { outline := none } (Except.error "database connection failed") =
      Except.error "database connection failed" ∧
    can_generate_chapter { outline := some outlineAB } (Except.ok storeCh1Done) 2 =
      Except.ok (true, "OK") := by
  refine ⟨by decide, by decide, by decide⟩

/-! ## C7: context chain retrieval -/

/-- Helper: the truthiness filter of the summaries comprehension equals a
`filterMap` keeping exactly the non-null, non-empty summaries. -/
theorem filter_truthy_summary_eq_filterMap (rows : List Chapter) :
    (rows.filter (fun c => truthy c.summary)).map (fun c => c.summary.getD "") =
      rows.filterMap
        (fun c => c.summary.bind (fun s => if s = "" then none else some s)) := by
  induction rows with
  | nil => rfl
  | cons c cs ih =>
    cases hs : c.summary with
    | none =>
      have ht : truthy c.summary = false := by rw [hs]; rfl
      have hb : c.summary.bind (fun t => if t = "" then none else some t) = none := by
        rw [hs]; rfl
      simp [List.filter_cons, List.filterMap_cons, ht, hb, ih]
    | some s =>
      by_cases hse : s = ""
      · have ht : truthy c.summary = false := by rw [hs]; simp [truthy, hse]
        have hb : c.summary.bind (fun t => if t = "" then none else some t) = none := by
          rw [hs]; simp [hse]
        simp [List.filter_cons, List.filterMap_cons, ht, hb, ih]
      · have ht : truthy c.summary = true := by rw [hs]; simp [truthy, hse]
        have hb : c.summary.bind (fun t => if t = "" then none else some t) = some s := by
          rw [hs]; simp [hse]
        have hg : c.summary.getD "" = s := by rw [hs]; rfl
        simp [List.filter_cons, List.filterMap_cons, ht, hb, hg, ih]

/-- C7 (amended).  The summaries query returns, in ascending chapter-number
order, exactly the summaries of the chapters below the target whose summary
is non-null and non-empty (Python truthiness also drops an empty-string
summary); every returned summary belongs to such a chapter. -/
theorem get_previous_chapter_summaries_spec (chapters : List Chapter) (n : Nat) :
    get_previous_chapter_summaries chapters n =
      (sortByKey Chapter.chapter_number
        (chapters.filter (fun c => c.chapter_number < n))).filterMap
          (fun c => c.summary.bind (fun s => if s = "" then none else some s)) ∧
    (∀ s ∈ get_previous_chapter_summaries chapters n,
      ∃ c ∈ chapters, c.chapter_number < n ∧ c.summary = some s ∧ s ≠ "") ∧
    ((sortByKey Chapter.chapter_number
        (chapters.filter (fun c => c.chapter_number < n))).map
          Chapter.chapter_number).Pairwise (· ≤ ·) := by
  refine ⟨?_, ?_, ?_⟩
  · unfold get_previous_chapter_summaries
    exact filter_truthy_summary_eq_filterMap _
  · intro s hs
    unfold get_previous_chapter_summaries at hs
    rcases List.mem_map.mp hs with ⟨c, hcf, hcd⟩
    rcases List.mem_filter.mp hcf with ⟨hcs, htr⟩
    have hcm : c ∈ chapters.filter (fun c => c.chapter_number < n) :=
      mem_sortByKey.mp hcs
    rcases List.mem_filter.mp hcm with ⟨hcc, hlt⟩
    cases hsum : c.summary with
    | none => rw [hsum] at htr; simp [truthy] at htr
    | some t =>
      rw [hsum] at htr
      have ht : ¬(t = "") := by
        simpa [truthy] using htr
      refine ⟨c, hcc, by simpa using hlt, ?_, ?_⟩
      · rw [hsum, ← hcd, hsum]
        simp [Option.getD]
      · rw [← hcd, hsum]
        simpa [Option.getD] using ht
  · have := pairwise_sortByKey Chapter.chapter_number
      (chapters.filter (fun c => c.chapter_number < n))
    exact List.pairwise_map.mpr this

/-- C7 (counterexample).  A chapter whose summary is present but empty is
silently dropped by the query, although the specification's non-null reading
would return it: the code and the claimed contract disagree on this store. -/
theorem empty_summary_dropped_from_context :
    get_previous_chapter_summaries [chEmptySummary] 2 = [] ∧
    contextForSpec [chEmptySummary] 2 = [""] := by
  refine ⟨by decide, by decide⟩

/-! ## C9: chapter numbering under the creating operations -/

/-- C9 (amended).  Whenever the workflow step admits it, the interactive
generate-chapter endpoint appends a fresh record carrying the requested
chapter number to the store, with no uniqueness check: the number of records
with that chapter number always grows by one. -/
theorem api_generate_chapter_appends_record (workflowStep : String)
    (numChapters : Nat) (outlineText : String) (chapters : List Chapter)
    (content : String) (n : Nat)
    (hstep : workflowStep = "chapter_generation" ∨ workflowStep = "chapter_review") :
    ∃ res, api_generate_chapter workflowStep numChapters outlineText chapters
        (Except.ok content) n = Except.ok res ∧
      res.chapters = chapters ++
        [{ chapter_number := n, title := some res.title, content := some content }] ∧
      res.chapters.countP (fun c => c.chapter_number == n) =
        chapters.countP (fun c => c.chapter_number == n) + 1 := by
  unfold api_generate_chapter
  have hcond : (workflowStep == "chapter_generation" ||
      workflowStep == "chapter_review") = true := by
    rcases hstep with h | h <;> simp [h]
  rw [if_neg (by simp [hcond])]
  dsimp only
  refine ⟨_, rfl, rfl, ?_⟩
  rw [List.countP_append]
  simp [List.countP_cons]

/-- Witness for C9's amended theorem: a second chapter appended to a
one-chapter store. -/
theorem api_generate_chapter_appends_record_witness :
    ("chapter_generation" = "chapter_generation" ∨
      "chapter_generation" = "chapter_review") ∧
    (∃ res, api_generate_chapter "chapter_generation" 2 outlineAB storeCh1Done
        (Except.ok "body") 2 = Except.ok res ∧
      res.chapters = storeCh1Done ++
        [{ chapter_number := 2, title := some res.title, content := some "body" }] ∧
      res.chapters.countP (fun c => c.chapter_number == 2) =
        storeCh1Done.countP (fun c => c.chapter_number == 2) + 1) :=
  ⟨Or.inl rfl,
    api_generate_chapter_appends_record "chapter_generation" 2 outlineAB storeCh1Done
      "body" 2 (Or.inl rfl)⟩

/-- C9 (counterexample).  Replaying the same generate-chapter request for
chapter 2 against the store left by the first request yields two records
with chapter_number 2: per-book uniqueness of the chapter number is not
preserved by the chapter-generation entry point. -/
theorem repeat_generate_chapter_duplicates_number :
    genRun1 = Except.ok ⟨storeCh1Done ++
        [{ chapter_number := 2, title := some "Beta", content := some "first run" }],
      "Beta", "first run"⟩ ∧
    genRun2 = Except.ok ⟨storeCh1Done ++
        [{ chapter_number := 2, title := some "Beta", content := some "first run" },
         { chapter_number := 2, title := some "Beta", content := some "second run" }],
      "Beta", "second run"⟩ ∧
    genStore2.countP (fun c => c.chapter_number == 2) = 2 := by
  refine ⟨by decide, by decide, by decide⟩

/-! ## C10: summary generation skips content-less chapters -/

/-- C10.  For a chapter whose content is null or empty,
`generate_and_store_summary` returns the empty string without invoking the
generation client, without attempting a persistence update, and without
raising, whatever either collaborator would have done. -/
theorem summary_skipped_without_content (chapter : Chapter)
    (llmSummary : Except String String) (dbUpdate : Except String Unit)
    (h : chapter.content = none ∨ chapter.content = some "") :
    generate_and_store_summary chapter llmSummary dbUpdate =
      ⟨Except.ok "", false, false⟩ := by
  unfold generate_and_store_summary
  rcases h with h | h <;> rw [h] <;> simp [truthy]

/-- Witness for C10 at a pending chapter with failing collaborators. -/
theorem summary_skipped_without_content_witness :
    (({ chapter_number := 3 } : Chapter).content = none ∨
      ({ chapter_number := 3 } : Chapter).content = some "") ∧
    generate_and_store_summary { chapter_number := 3 }
      (Except.error "boom") (Except.error "db down") =
      ⟨Except.ok "", false, false⟩ :=
  ⟨Or.inl rfl,
    summary_skipped_without_content { chapter_number := 3 }
      (Except.error "boom") (Except.error "db down") (Or.inl rfl)⟩

/-! ## C8: best-effort summary at chapter approval -/

/-- C8.  When an existing chapter is approved and the post-approval summary
generation fails, or the persistence of a generated (truthy) summary fails,
the endpoint still answers success with the chapter reported approved (or
all approved) and the workflow advanced to the next step; the failure
surfaces only in the logged warnings and is never propagated.  (Persistence
is only attempted for a non-empty generated summary — the source's
`if summary:` truthiness gate — so a persistence failure can only occur
there.) -/
theorem approve_chapter_summary_best_effort (chapters : List Chapter) (n : Nat)
    (approval : ApprovalReq) (genSummary : Except String String)
    (saveSummary : Except String Unit) (total : Nat)
    (hfound : (chapters.find? (fun c => c.chapter_number == n)).isSome = true)
    (happ : approval.approved = true)
    (hfail : (∃ e, genSummary = Except.error e) ∨
      (∃ s e, genSummary = Except.ok s ∧ s ≠ "" ∧ saveSummary = Except.error e)) :
    ∃ out, api_approve_chapter chapters n approval genSummary saveSummary total =
        Except.ok out ∧
      (out.status = "approved" ∨ out.status = "all_approved") ∧
      (out.next_step = some ("generate_chapter_" ++ toString (n + 1)) ∨
        out.next_step = some "final_review") ∧
      out.warnings ≠ [] := by
  unfold api_approve_chapter
  cases hf : chapters.find? (fun c => c.chapter_number == n) with
  | none => rw [hf] at hfound; simp at hfound
  | some ch =>
    dsimp only
    rw [if_pos happ]
    cases hg : genSummary with
    | error e =>
      dsimp only
      by_cases hlt : n < total
      · rw [if_pos hlt]
        exact ⟨_, rfl, Or.inl rfl, Or.inl rfl, by simp [truthy]⟩
      · rw [if_neg hlt]
        exact ⟨_, rfl, Or.inr rfl, Or.inr rfl, by simp [truthy]⟩
    | ok s =>
      have hsv : ∃ s e, genSummary = Except.ok s ∧ s ≠ "" ∧
          saveSummary = Except.error e := by
        rcases hfail with ⟨e, hge⟩ | hsv
        · rw [hg] at hge; cases hge
        · exact hsv
      obtain ⟨s', e, hok, hsne, hse⟩ := hsv
      rw [hg] at hok
      injection hok with hss
      subst hss
      rw [hse]
      dsimp only
      have htru : truthy (some s) = true := by simp [truthy, hsne]
      by_cases hlt : n < total
      · rw [if_pos hlt]
        refine ⟨_, rfl, Or.inl rfl, Or.inl rfl, ?_⟩
        simp [htru]
      · rw [if_neg hlt]
        refine ⟨_, rfl, Or.inr rfl, Or.inr rfl, ?_⟩
        simp [htru]

/-- Witness for C8: approving existing chapter 1 of 5 while the summary
generator is rate-limited. -/
theorem approve_chapter_summary_best_effort_witness :
    ((storeCh1Done.find? (fun c => c.chapter_number == 1)).isSome = true ∧
      (⟨true, none, none⟩ : ApprovalReq).approved = true ∧
      ((∃ e, (Except.error "quota exceeded" : Except String String) = Except.error e) ∨
        (∃ s e, (Except.error "quota exceeded" : Except String String) = Except.ok s ∧
          s ≠ "" ∧ (Except.ok () : Except String Unit) = Except.error e))) ∧
    (∃ out, api_approve_chapter storeCh1Done 1 ⟨true, none, none⟩
        (Except.error "quota exceeded") (Except.ok ()) 5 = Except.ok out ∧
      (out.status = "approved" ∨ out.status = "all_approved") ∧
      (out.next_step = some ("generate_chapter_" ++ toString (1 + 1)) ∨
        out.next_step = some "final_review") ∧
      out.warnings ≠ []) :=
  ⟨⟨by decide, rfl, Or.inl ⟨"quota exceeded", rfl⟩⟩,
    approve_chapter_summary_best_effort storeCh1Done 1 ⟨true, none, none⟩
      (Except.error "quota exceeded") (Except.ok ()) 5 (by decide) rfl
      (Or.inl ⟨"quota exceeded", rfl⟩)⟩

/-! ## Unfolding lemmas for the retry loop -/

/-- A successful attempt ends the loop at once. -/
theorem callAux_ok (resp : Nat → Except String String) (m fuel attempt : Nat)
    (t : String) (hresp : resp attempt = Except.ok t) :
    callAux resp m (fuel + 1) attempt = ⟨[], attempt + 1, Except.ok t⟩ := by
  simp only [callAux]
  rw [hresp]

/-- A failure not classified as rate-limited is re-raised at once. -/
theorem callAux_nonRL (resp : Nat → Except String String) (m fuel attempt : Nat)
    (msg : String) (hresp : resp attempt = Except.error msg)
    (hnrl : isRateLimitMsg msg = false) :
    callAux resp m (fuel + 1) attempt = ⟨[], attempt + 1, Except.error msg⟩ := by
  simp only [callAux]
  rw [hresp]
  dsimp only
  rw [if_neg (by simp [hnrl])]

/-- A rate-limited failure whose matched delay group does not convert
raises the float conversion error at once. -/
theorem callAux_malformed (resp : Nat → Except String String) (m fuel attempt : Nat)
    (msg : String) (run : List Char) (hresp : resp attempt = Except.error msg)
    (hrl : isRateLimitMsg msg = true)
    (hex : extractRetryGroup msg.data = some run) (hpf : pyFloatOfRun run = none) :
    callAux resp m (fuel + 1) attempt =
      ⟨[], attempt + 1, Except.error (floatConvError run)⟩ := by
  simp only [callAux]
  rw [hresp]
  dsimp only
  rw [if_pos hrl, hex]
  dsimp only
  rw [hpf]

/-- A retryable rate-limited failure with attempts remaining sleeps for the
computed delay and continues with the next attempt. -/
theorem callAux_step (resp : Nat → Except String String) (m fuel attempt : Nat)
    (hr : rlRetryable (resp attempt) = true) (hlt : attempt + 1 < m) :
    callAux resp m (fuel + 1) attempt =
      ⟨delayOf (resp attempt) attempt :: (callAux resp m fuel (attempt + 1)).sleeps,
        (callAux resp m fuel (attempt + 1)).attempts,
        (callAux resp m fuel (attempt + 1)).outcome⟩ := by
  cases hresp : resp attempt with
  | ok t => rw [hresp] at hr; simp [rlRetryable] at hr
  | error msg =>
    rw [hresp] at hr
    unfold rlRetryable at hr
    rw [Bool.and_eq_true] at hr
    obtain ⟨hrl, hrest⟩ := hr
    simp only [callAux]
    rw [hresp]
    dsimp only
    rw [if_pos hrl]
    cases hex : extractRetryGroup msg.data with
    | none =>
      dsimp only
      rw [if_pos hlt]
      simp [delayOf, hex]
    | some run =>
      rw [hex] at hrest
      dsimp only at hrest
      cases hpf : pyFloatOfRun run with
      | none => rw [hpf] at hrest; simp at hrest
      | some q =>
        dsimp only
        rw [hpf]
        dsimp only
        rw [if_pos hlt]
        simp [delayOf, hex, hpf]

/-- A retryable rate-limited failure on the final attempt raises the
distinguished user-facing rate-limit error. -/
theorem callAux_final (resp : Nat → Except String String) (m fuel attempt : Nat)
    (hr : rlRetryable (resp attempt) = true) (hge : ¬(attempt + 1 < m)) :
    callAux resp m (fuel + 1) attempt =
      ⟨[], attempt + 1, Except.error rateLimitUserMsg⟩ := by
  cases hresp : resp attempt with
  | ok t => rw [hresp] at hr; simp [rlRetryable] at hr
  | error msg =>
    rw [hresp] at hr
    unfold rlRetryable at hr
    rw [Bool.and_eq_true] at hr
    obtain ⟨hrl, hrest⟩ := hr
    simp only [callAux]
    rw [hresp]
    dsimp only
    rw [if_pos hrl]
    cases hex : extractRetryGroup msg.data with
    | none =>
      dsimp only
      rw [if_neg hge]
    | some run =>
      rw [hex] at hrest
      dsimp only at hrest
      cases hpf : pyFloatOfRun run with
      | none => rw [hpf] at hrest; simp at hrest
      | some q =>
        dsimp only
        rw [hpf]
        dsimp only
        rw [if_neg hge]

/-- The k-th sleep of a run whose first k+1 attempts fail retryably is the
delay computed from the k-th failure. -/
theorem callAux_sleeps_aux (resp : Nat → Except String String) (m : Nat) :
    ∀ (k attempt fuel : Nat) (msg : String),
      attempt + fuel = m → attempt + k + 1 < m →
      (∀ j, j ≤ k → rlRetryable (resp (attempt + j)) = true) →
      resp (attempt + k) = Except.error msg →
      k < (callAux resp m fuel attempt).sleeps.length ∧
      (callAux resp m fuel attempt).sleeps.getD k 0 =
        delayOf (Except.error msg) (attempt + k) := by
  intro k
  induction k with
  | zero =>
    intro attempt fuel msg hfu hlt hall hmsg
    match fuel, hfu with
    | 0, hfu => omega
    | fuel' + 1, hfu =>
      have hr : rlRetryable (resp attempt) = true := by
        simpa using hall 0 (by omega)
      rw [callAux_step resp m fuel' attempt hr (by omega)]
      refine ⟨by simp, ?_⟩
      have hmsg' : resp attempt = Except.error msg := by simpa using hmsg
      simp [hmsg']
  | succ k ih =>
    intro attempt fuel msg hfu hlt hall hmsg
    match fuel, hfu with
    | 0, hfu => omega
    | fuel' + 1, hfu =>
      have hr : rlRetryable (resp attempt) = true := by
        simpa using hall 0 (by omega)
      rw [callAux_step resp m fuel' attempt hr (by omega)]
      have hall' : ∀ j, j ≤ k → rlRetryable (resp (attempt + 1 + j)) = true := by
        intro j hj
        have := hall (j + 1) (by omega)
        have harith : attempt + (j + 1) = attempt + 1 + j := by omega
        rwa [harith] at this
      have hmsg' : resp (attempt + 1 + k) = Except.error msg := by
        have harith : attempt + (k + 1) = attempt + 1 + k := by omega
        rwa [harith] at hmsg
      have := ih (attempt + 1) fuel' msg (by omega) (by omega) hall' hmsg'
      rcases this with ⟨h1, h2⟩
      refine ⟨by simpa using h1, ?_⟩
      have harith : attempt + 1 + k = attempt + (k + 1) := by omega
      rw [List.getD_cons_succ, h2, harith]

/-- A run whose every attempt fails retryably exhausts all attempts and
raises the distinguished rate-limit error. -/
theorem callAux_exhaust_aux (resp : Nat → Except String String) (m : Nat) :
    ∀ (fuel attempt : Nat),
      attempt + fuel = m → 1 ≤ fuel →
      (∀ i, attempt ≤ i → i < m → rlRetryable (resp i) = true) →
      (callAux resp m fuel attempt).outcome = Except.error rateLimitUserMsg ∧
      (callAux resp m fuel attempt).attempts = m := by
  intro fuel
  induction fuel with
  | zero => intro attempt _ h1 _; omega
  | succ fuel' ih =>
    intro attempt hfu _ hall
    have hr : rlRetryable (resp attempt) = true := hall attempt (by omega) (by omega)
    by_cases hlt : attempt + 1 < m
    · rw [callAux_step resp m fuel' attempt hr hlt]
      have := ih (attempt + 1) (by omega) (by omega)
        (fun i hi him => hall i (by omega) him)
      exact this
    · rw [callAux_final resp m fuel' attempt hr hlt]
      refine ⟨rfl, ?_⟩
      simp only
      omega

/-- A non-rate-limited failure at attempt j (after j retryable failures) is
re-raised as such, with no attempt made after it. -/
theorem callAux_reraise_aux (resp : Nat → Except String String) (m : Nat) :
    ∀ (j attempt fuel : Nat) (msg : String),
      attempt + fuel = m → attempt + j < m →
      (∀ i, i < j → rlRetryable (resp (attempt + i)) = true) →
      resp (attempt + j) = Except.error msg → isRateLimitMsg msg = false →
      (callAux resp m fuel attempt).outcome = Except.error msg ∧
      (callAux resp m fuel attempt).attempts = attempt + j + 1 := by
  intro j
  induction j with
  | zero =>
    intro attempt fuel msg hfu hlt hall hmsg hnrl
    match fuel, hfu with
    | 0, hfu => omega
    | fuel' + 1, hfu =>
      have hmsg' : resp attempt = Except.error msg := by simpa using hmsg
      rw [callAux_nonRL resp m fuel' attempt msg hmsg' hnrl]
      exact ⟨rfl, by simp⟩
  | succ j ih =>
    intro attempt fuel msg hfu hlt hall hmsg hnrl
    match fuel, hfu with
    | 0, hfu => omega
    | fuel' + 1, hfu =>
      have hr : rlRetryable (resp attempt) = true := by
        simpa using hall 0 (by omega)
      rw [callAux_step resp m fuel' attempt hr (by omega)]
      have hall' : ∀ i, i < j → rlRetryable (resp (attempt + 1 + i)) = true := by
        intro i hi
        have := hall (i + 1) (by omega)
        have harith : attempt + (i + 1) = attempt + 1 + i := by omega
        rwa [harith] at this
      have hmsg'' : resp (attempt + 1 + j) = Except.error msg := by
        have harith : attempt + (j + 1) = attempt + 1 + j := by omega
        rwa [harith] at hmsg
      have := ih (attempt + 1) fuel' msg (by omega) (by omega) hall' hmsg'' hnrl
      rcases this with ⟨h1, h2⟩
      refine ⟨h1, ?_⟩
      rw [h2]
      omega

/-- Every raised error of the retry loop is the distinguished rate-limit
message, the immediate re-raise of a non-rate-limited failure, or the float
conversion error of a malformed embedded delay. -/
theorem callAux_error_classified (resp : Nat → Except String String) (m : Nat) :
    ∀ (fuel attempt : Nat) (e : String),
      attempt + fuel = m → 1 ≤ fuel →
      (callAux resp m fuel attempt).outcome = Except.error e →
      e = rateLimitUserMsg ∨
      (∃ j, j < m ∧ resp j = Except.error e ∧ isRateLimitMsg e = false) ∨
      (∃ run, e = floatConvError run) := by
  intro fuel
  induction fuel with
  | zero => intro attempt e h1 h2; omega
  | succ fuel' ih =>
    intro attempt e hfu _ hout
    cases hresp : resp attempt with
    | ok t =>
      rw [callAux_ok resp m fuel' attempt t hresp] at hout
      cases hout
    | error msg =>
      by_cases hrl : isRateLimitMsg msg = true
      · cases hex : extractRetryGroup msg.data with
        | some run =>
          cases hpf : pyFloatOfRun run with
          | none =>
            rw [callAux_malformed resp m fuel' attempt msg run hresp hrl hex hpf] at hout
            have : e = floatConvError run := by
              injection hout with h
              exact h.symm
            exact Or.inr (Or.inr ⟨run, this⟩)
          | some q =>
            have hr : rlRetryable (resp attempt) = true := by
              simp [rlRetryable, hresp, hrl, hex, hpf]
            by_cases hlt : attempt + 1 < m
            · rw [callAux_step resp m fuel' attempt hr hlt] at hout
              exact ih (attempt + 1) e (by omega) (by omega) hout
            · rw [callAux_final resp m fuel' attempt hr hlt] at hout
              injection hout with h
              exact Or.inl h.symm
        | none =>
          have hr : rlRetryable (resp attempt) = true := by
            simp [rlRetryable, hresp, hrl, hex]
          by_cases hlt : attempt + 1 < m
          · rw [callAux_step resp m fuel' attempt hr hlt] at hout
            exact ih (attempt + 1) e (by omega) (by omega) hout
          · rw [callAux_final resp m fuel' attempt hr hlt] at hout
            injection hout with h
            exact Or.inl h.symm
      · have hnrl : isRateLimitMsg msg = false := by simpa using hrl
        rw [callAux_nonRL resp m fuel' attempt msg hresp hnrl] at hout
        have he : msg = e := by injection hout
        exact Or.inr (Or.inl ⟨attempt, by omega, by rw [hresp, he], by rw [← he]; exact hnrl⟩)

/-! ## C5: backoff schedule -/

/-- C5 (amended).  After k retryable rate-limited failures with attempts
remaining, the loop sleeps a k-th time before attempt k+2 (0-based attempt
index k), and that sleep equals the delay embedded in the k-th failure
message when the matched group converts, and the exponential backoff
two-to-the-k times five seconds otherwise.  (A rate-limited failure whose
matched group does not convert raises the conversion error instead of
sleeping; such failures are excluded by the retryability hypothesis.) -/
theorem retry_sleep_schedule (resp : Nat → Except String String) (m k : Nat)
    (msg : String) (hk : k + 1 < m)
    (hall : ∀ j, j ≤ k → rlRetryable (resp j) = true)
    (hmsg : resp k = Except.error msg) :
    k < (call_with_retry resp m).sleeps.length ∧
    (call_with_retry resp m).sleeps.getD k 0 =
      (match extractRetryGroup msg.data with
       | some run => (pyFloatOfRun run).getD 0
       | none => (2 : ℚ) ^ k * 5) := by
  have := callAux_sleeps_aux resp m k 0 m msg (by omega) (by omega)
    (by simpa using hall) (by simpa using hmsg)
  unfold call_with_retry
  rcases this with ⟨h1, h2⟩
  refine ⟨h1, ?_⟩
  rw [h2]
  simp [delayOf]

/-- Witness for C5's amended theorem: a rate-limited failure with no
embedded delay sleeps five seconds before the second attempt. -/
theorem retry_sleep_schedule_witness :
    (0 + 1 < 3 ∧ (∀ j, j ≤ 0 → rlRetryable (respQuota j) = true) ∧
      respQuota 0 = Except.error "429 quota exceeded for this key") ∧
    (0 < (call_with_retry respQuota 3).sleeps.length ∧
      (call_with_retry respQuota 3).sleeps.getD 0 0 =
        (match extractRetryGroup "429 quota exceeded for this key".data with
         | some run => (pyFloatOfRun run).getD 0
         | none => (2 : ℚ) ^ 0 * 5)) :=
  ⟨⟨by decide, by decide, rfl⟩,
    retry_sleep_schedule respQuota 3 0 "429 quota exceeded for this key"
      (by decide) (by decide) rfl⟩

/-- C5 (counterexample).  The claim as stated fails: on a rate-limited
failure whose message matches the retry-in pattern with characters that do
not form a number (retry in 1..2s), the loop neither sleeps the embedded
delay nor falls back to the exponential backoff — it raises the float
conversion error with no sleep and no further attempt. -/
theorem claimC5Statement_false : ¬claimC5Statement := by
  intro h
  have hinst := h respMalformedDelay 3 1 "429 retry in 1..2s"
    (by decide) (by decide) (by decide) rfl (by decide)
  rcases hinst with ⟨hlen, _⟩
  have hz : (call_with_retry respMalformedDelay 3).sleeps.length = 0 := by decide
  omega

/-! ## C6: raise discipline -/

/-- C6 (amended).  The loop raises in exactly three ways: the distinguished
user-facing rate-limit message after every attempt failed retryably; the
immediate re-raise of the first failure whose message is not rate-limited
(with no attempt made after it); or the float conversion error of a
rate-limited failure embedding a malformed delay. -/
theorem retry_raise_classification :
    (∀ (resp : Nat → Except String String) (m : Nat), 1 ≤ m →
      (∀ i, i < m → rlRetryable (resp i) = true) →
      (call_with_retry resp m).outcome = Except.error rateLimitUserMsg ∧
      (call_with_retry resp m).attempts = m) ∧
    (∀ (resp : Nat → Except String String) (m j : Nat) (msg : String), j < m →
      (∀ i, i < j → rlRetryable (resp i) = true) →
      resp j = Except.error msg → isRateLimitMsg msg = false →
      (call_with_retry resp m).outcome = Except.error msg ∧
      (call_with_retry resp m).attempts = j + 1) ∧
    (∀ (resp : Nat → Except String String) (m : Nat) (e : String), 1 ≤ m →
      (call_with_retry resp m).outcome = Except.error e →
      e = rateLimitUserMsg ∨
      (∃ j, j < m ∧ resp j = Except.error e ∧ isRateLimitMsg e = false) ∨
      (∃ run, e = floatConvError run)) := by
  refine ⟨?_, ?_, ?_⟩
  · intro resp m hm hall
    exact callAux_exhaust_aux resp m m 0 (by omega) (by omega)
      (fun i _ him => hall i him)
  · intro resp m j msg hj hall hmsg hnrl
    have := callAux_reraise_aux resp m j 0 m msg (by omega) (by omega)
      (by simpa using hall) (by simpa using hmsg) hnrl
    simpa [call_with_retry] using this
  · intro resp m e hm hout
    exact callAux_error_classified resp m m 0 e (by omega) (by omega) hout

/-- Witness for C6's amended theorem: exhaustion raises the distinguished
message after three attempts, and a non-rate-limited failure is re-raised
after one attempt. -/
theorem retry_raise_classification_witness :
    ((call_with_retry respQuota 3).outcome = Except.error rateLimitUserMsg ∧
      (call_with_retry respQuota 3).attempts = 3) ∧
    ((call_with_retry respBoom 3).outcome = Except.error "invalid request payload" ∧
      (call_with_retry respBoom 3).attempts = 0 + 1) :=
  ⟨retry_raise_classification.1 respQuota 3 (by decide) (by decide),
    retry_raise_classification.2.1 respBoom 3 0 "invalid request payload"
      (by decide) (by decide) rfl (by decide)⟩

/-- C6 (counterexample).  The claim as stated fails: a rate-limited failure
with a malformed embedded delay makes the client raise the float conversion
error — neither a re-raise of the original failure message nor the
distinguished rate-limit message. -/
theorem claimC6Statement_false : ¬claimC6Statement := by
  intro h
  rcases h respMalformedDelay 3 (floatConvError ('1' :: '.' :: '.' :: '2' :: []))
      (by decide) (by decide) with ⟨j, _, hresp, _⟩ | heq
  · have h2 : Except.error "429 retry in 1..2s" =
        Except.error (floatConvError ('1' :: '.' :: '.' :: '2' :: [])) := hresp
    have h3 : ("429 retry in 1..2s" : String) =
        floatConvError ('1' :: '.' :: '.' :: '2' :: []) := by
      injection h2
    exact absurd h3 (by decide)
  · exact absurd heq (by decide)

end BookGen
